import Mathlib

/-!
Verification of the bulk ticket-creation server (server/index.js) of the
zoho-desk-blaster-buddy repository.  The definitions below are a shallow
embedding of the relevant server code: the in-memory job registry and its
socket handlers (pauseJob / resumeJob / endJob), the interruptibleSleep
polling primitive, the startBulkCreate worker loop, the verifyTicketEmail
check and the getValidAccessToken token cache.  External effects (upstream
HTTP calls, registry mutations performed concurrently by other handlers)
are supplied as explicit oracles: each read of `activeJobs[jobId]` by the
worker observes a value provided by the environment, and each upstream call
returns an outcome provided by the environment.
-/

/-- Status values stored in the `activeJobs` registry. -/
inductive JobStatus where
  | running
  | paused
  | ended
deriving DecidableEq, Repr

/-- The `activeJobs` map: job id to optional status record. -/
def Registry : Type := String → Option JobStatus

/-- Registry with no entries. -/
def emptyRegistry : Registry := fun _ => none

/-- Embeds `activeJobs[jobId] = { status: 'running' }` performed at the start
of the startBulkCreate handler (unconditional overwrite). -/
def startJob (r : Registry) (jobId : String) : Registry :=
  fun k => if k = jobId then some JobStatus.running else r k

/-- Embeds the pauseJob handler: `if (activeJobs[jobId]) activeJobs[jobId].status = 'paused'`. -/
def pauseJob (r : Registry) (jobId : String) : Registry :=
  fun k => if k = jobId ∧ (r jobId).isSome then some JobStatus.paused else r k

/-- Embeds the resumeJob handler: `if (activeJobs[jobId]) activeJobs[jobId].status = 'running'`. -/
def resumeJob (r : Registry) (jobId : String) : Registry :=
  fun k => if k = jobId ∧ (r jobId).isSome then some JobStatus.running else r k

/-- Embeds the endJob handler: `if (activeJobs[jobId]) activeJobs[jobId].status = 'ended'`. -/
def endJob (r : Registry) (jobId : String) : Registry :=
  fun k => if k = jobId ∧ (r jobId).isSome then some JobStatus.ended else r k

/-- Embeds `delete activeJobs[jobId]` (worker finally block / disconnect sweep). -/
def removeJob (r : Registry) (jobId : String) : Registry :=
  fun k => if k = jobId then none else r k

/-- Embeds `${socketId}_${profileName}`. -/
def createJobId (socketId profileName : String) : String :=
  socketId ++ "_" ++ profileName

/-- The condition `!activeJobs[jobId] || activeJobs[jobId].status === 'ended'`
tested by the worker loop and by interruptibleSleep on an observed registry
value: entry missing or status ended. -/
def stopObs : Option JobStatus → Bool
  | none => true
  | some JobStatus.ended => true
  | some _ => false

/-- Condition checked by one tick of the interruptibleSleep setInterval
callback: stop because the registry says so, or because after this tick the
elapsed time `100 * (k + 1)` has reached `ms`. -/
def sleepTickStops (ms : Nat) (obs : Nat → Option JobStatus) (k : Nat) : Bool :=
  stopObs (obs k) || decide (ms ≤ 100 * (k + 1))

/-- Embeds the setInterval loop of interruptibleSleep: tick `k` first checks
the registry (resolve early when the entry is gone or ended), then adds 100 ms
to `elapsed` and resolves when `elapsed >= ms`.  Returns the total number of
ticks that ran before the promise resolved.  `fuel` bounds the recursion; the
wrapper passes enough fuel for the elapsed-time condition to fire. -/
def sleepGo (ms : Nat) (obs : Nat → Option JobStatus) : Nat → Nat → Nat
  | 0, k => k
  | fuel + 1, k =>
    if sleepTickStops ms obs k then k + 1
    else sleepGo ms obs fuel (k + 1)

/-- Embeds interruptibleSleep: `if (ms <= 0) return resolve();` then a 100 ms
poll.  Returns the number of 100 ms ticks executed before resolution (0 for a
non-positive duration). -/
def interruptibleSleep (ms : Int) (obs : Nat → Option JobStatus) : Nat :=
  if ms ≤ 0 then 0 else sleepGo ms.toNat obs ms.toNat 0

/-- Normalized error shape produced by parseError: `{ message, fullResponse }`. -/
structure ErrInfo where
  message : String
  fullResponse : String
deriving DecidableEq, Repr

/-- The fields of an upstream ticket-creation response used by the worker:
`newTicket.id` and `newTicket.ticketNumber`. -/
structure Ticket where
  id : String
  ticketNumber : Nat
deriving DecidableEq, Repr

/-- Profile record as read from profiles.json (fields used by the worker and
the token cache).  `fromEmailAddress` is optional because the setup check
`!activeProfile.fromEmailAddress` treats a missing or empty value as absent. -/
structure Profile where
  profileName : String
  orgId : String
  defaultDepartmentId : String
  refreshToken : String
  clientId : String
  clientSecret : String
  fromEmailAddress : Option String
deriving DecidableEq, Repr

/-- JavaScript falsiness of an optional string field (`undefined`, `null` or `""`). -/
def jsFalsyOptStr : Option String → Bool
  | none => true
  | some s => s == ""

/-- Embeds `profiles.find(p => p.profileName === selectedProfileName)`. -/
def findProfile (profiles : List Profile) (name : String) : Option Profile :=
  profiles.find? (fun p => p.profileName == name)

/-- Value stored in `fullResponseData.sendReply`: either the reply response
data or `{ error: parseError(replyError) }`. -/
inductive ReplyField where
  | ok (data : String)
  | err (e : ErrInfo)
deriving DecidableEq, Repr

/-- Payload of a ticketResult emission.  The success-path emission carries
`ticketNumber` and `details`; the creation-failure emission carries `error`
instead.  `sendReply` mirrors `fullResponseData.sendReply`. -/
structure TicketResult where
  email : String
  success : Bool
  ticketNumber : Option Nat
  details : Option String
  error : Option String
  sendReply : Option ReplyField
deriving DecidableEq, Repr

/-- Observable actions of one startBulkCreate run, in order: the pause poll
waiting (with the number of paused observations), an interruptibleSleep
delay slot (with the number of ticks it ran), an upstream create-ticket call,
a ticket-log append, a ticketResult emission, and the bulkError /
bulkComplete / bulkEnded emissions. -/
inductive Event where
  | pauseWait (i : Nat) (polls : Nat)
  | delaySlot (i : Nat) (ticks : Nat)
  | createCall (i : Nat) (email : String)
  | logWrite (ticketNumber : Nat) (email : String)
  | result (r : TicketResult)
  | bulkError (message : String)
  | bulkComplete (profileName : String)
  | bulkEnded (profileName : String)
deriving DecidableEq, Repr

/-- Environment of one loop iteration: the registry values observed at the
two break checks, the number of times the pause poll observed `paused`
before observing something else, the registry values observed by the delay
ticks, and the outcomes of the upstream create and sendReply calls. -/
structure IterEnv where
  statusA : Option JobStatus
  pausePolls : Nat
  sleepObs : Nat → Option JobStatus
  statusB : Option JobStatus
  createResult : Except ErrInfo Ticket
  replyResult : Except ErrInfo String

/-- Embeds the test `!email.trim()` of the blank-recipient check: a string
trims to the empty string exactly when every one of its characters is
whitespace.  (String.trim itself is defined by well-founded recursion over
byte positions and does not reduce inside the kernel, so the check is
embedded through this equivalent characterization.) -/
def isBlank (s : String) : Bool := s.data.all Char.isWhitespace

/-- Embeds the body of the worker loop from the create call onward (lines
527-582 of server/index.js): issue the create call; on success append to the
ticket log and, when sendDirectReply is set, issue the reply call whose
failure degrades the overall success flag; emit exactly one ticketResult. -/
def processEmail (sdr : Bool) (i : Nat) (email : String)
    (createResult : Except ErrInfo Ticket) (replyResult : Except ErrInfo String) :
    List Event :=
  Event.createCall i email ::
    match createResult with
    | Except.ok t =>
      Event.logWrite t.ticketNumber email ::
        (if sdr then
          match replyResult with
          | Except.ok resp =>
            [Event.result
              { email := email, success := true, ticketNumber := some t.ticketNumber,
                details := some ("Ticket #" ++ toString t.ticketNumber ++ " created and reply sent."),
                error := none, sendReply := some (ReplyField.ok resp) }]
          | Except.error e =>
            [Event.result
              { email := email, success := false, ticketNumber := some t.ticketNumber,
                details := some ("Ticket #" ++ toString t.ticketNumber ++ " created, but reply failed: " ++ e.message),
                error := none, sendReply := some (ReplyField.err e) }]
        else
          [Event.result
            { email := email, success := true, ticketNumber := some t.ticketNumber,
              details := some ("Ticket #" ++ toString t.ticketNumber ++ " created."),
              error := none, sendReply := none }])
    | Except.error e =>
      [Event.result
        { email := email, success := false, ticketNumber := none,
          details := none, error := some e.message, sendReply := none }]

/-- Embeds the worker loop (lines 516-583): per index, break when the entry
is missing or ended; loop in the 500 ms pause poll while paused; when
`i > 0 && delay > 0` run interruptibleSleep for `delay` seconds; re-check for
ended; skip blank (trimmed-empty) recipients; otherwise process the
recipient.  `delay` is in seconds as in the request payload. -/
def runLoop (sdr : Bool) (delay : Nat) (env : Nat → IterEnv) :
    List String → Nat → List Event
  | [], _ => []
  | email :: rest, i =>
    let e := env i
    if stopObs e.statusA then []
    else
      (if 0 < e.pausePolls then [Event.pauseWait i e.pausePolls] else []) ++
      (if 0 < i ∧ 0 < delay then
        [Event.delaySlot i (interruptibleSleep ((delay : Int) * 1000) e.sleepObs)]
      else []) ++
      (if stopObs e.statusB then []
      else if isBlank email then runLoop sdr delay env rest (i + 1)
      else processEmail sdr i email e.createResult e.replyResult ++
        runLoop sdr delay env rest (i + 1))

/-- Request payload of the startBulkCreate socket event. -/
structure BulkRequest where
  emails : List String
  subject : String
  description : String
  delay : Nat
  selectedProfileName : String
  sendDirectReply : Bool
  verifyEmail : Bool

/-- Embeds the finally block terminal emission: nothing when the registry
entry was already removed, bulkEnded when its status is ended, bulkComplete
otherwise. -/
def terminalEvents (finalStatus : Option JobStatus) (profileName : String) :
    List Event :=
  match finalStatus with
  | none => []
  | some JobStatus.ended => [Event.bulkEnded profileName]
  | some _ => [Event.bulkComplete profileName]

/-- Result of a startBulkCreate run: the emitted/performed events and whether
the finally block deleted the registry entry. -/
structure BulkOutcome where
  events : List Event
  registryDeleted : Bool
deriving DecidableEq, Repr

/-- Embeds the startBulkCreate handler (lines 500-598): register the job,
look up the profile and check `fromEmailAddress` when sendDirectReply is set
(a failure throws, is caught, and emits bulkError), run the worker loop, and
run the finally block against the registry value it observes at that point
(`finalStatus`). -/
def startBulkCreate (profiles : List Profile) (req : BulkRequest)
    (env : Nat → IterEnv) (finalStatus : Option JobStatus) : BulkOutcome :=
  match findProfile profiles req.selectedProfileName with
  | none =>
    { events := Event.bulkError "Profile not found." ::
        terminalEvents finalStatus req.selectedProfileName,
      registryDeleted := finalStatus.isSome }
  | some p =>
    if req.sendDirectReply && jsFalsyOptStr p.fromEmailAddress then
      { events := Event.bulkError ("Profile \"" ++ req.selectedProfileName ++
          "\" is missing \"fromEmailAddress\".") ::
          terminalEvents finalStatus req.selectedProfileName,
        registryDeleted := finalStatus.isSome }
    else
      { events := runLoop req.sendDirectReply req.delay env req.emails 0 ++
          terminalEvents finalStatus req.selectedProfileName,
        registryDeleted := finalStatus.isSome }

/-- Body of a ticket-history feed response: `response.data.data` may be
missing, in which case the code substitutes `[]` via `|| []`.  Individual
history events are opaque payloads here; only their count is consulted. -/
structure HistoryFeed where
  data : Option (List String)
deriving DecidableEq, Repr

/-- Entry of the department-scoped emailFailureAlerts feed. -/
structure FailureAlert where
  ticketNumber : Nat
  reason : String
deriving DecidableEq, Repr

/-- Body of the emailFailureAlerts response: `failureResponse.data.data` may
be missing, guarded by optional chaining in the code. -/
structure AlertFeed where
  data : Option (List FailureAlert)
deriving DecidableEq, Repr

/-- Payload of the ticketUpdate emission produced by verifyTicketEmail. -/
structure VerifyUpdate where
  ticketNumber : Nat
  success : Bool
  details : String
  profileName : String
deriving DecidableEq, Repr

/-- Embeds `failureResponse.data.data?.find(f => String(f.ticketNumber) ===
String(ticket.ticketNumber))`. -/
def findFailureAlert (feed : AlertFeed) (ticketNumber : Nat) :
    Option FailureAlert :=
  match feed.data with
  | none => none
  | some l => l.find? (fun f => toString f.ticketNumber == toString ticketNumber)

/-- Embeds verifyTicketEmail (lines 600-660): after the fixed wait, fetch the
two history feeds (a rejection of either lands in the catch branch); when the
concatenation of their (defaulted) data arrays is non-empty report success;
otherwise fetch the failure-alert feed, match an alert by ticket number, and
report failure with the alert reason (or Not Found); any upstream error
yields the inconclusive failure update. -/
def verifyTicketEmail (ticket : Ticket) (profile : Profile)
    (workflowFeed notificationFeed : Except ErrInfo HistoryFeed)
    (alertFeed : Except ErrInfo AlertFeed) : VerifyUpdate :=
  match workflowFeed, notificationFeed with
  | Except.ok w, Except.ok n =>
    let allHistoryEvents := w.data.getD [] ++ n.data.getD []
    if 0 < allHistoryEvents.length then
      { ticketNumber := ticket.ticketNumber, success := true,
        details := "Ticket #" ++ toString ticket.ticketNumber ++ " created. " ++
          "Email verification: Sent successfully.",
        profileName := profile.profileName }
    else
      match alertFeed with
      | Except.ok feed =>
        match findFailureAlert feed ticket.ticketNumber with
        | some failure =>
          { ticketNumber := ticket.ticketNumber, success := false,
            details := "Ticket #" ++ toString ticket.ticketNumber ++ " created. " ++
              ("Email verification: Failed. Reason: " ++ failure.reason),
            profileName := profile.profileName }
        | none =>
          { ticketNumber := ticket.ticketNumber, success := false,
            details := "Ticket #" ++ toString ticket.ticketNumber ++ " created. " ++
              "Email verification: Not Found.",
            profileName := profile.profileName }
      | Except.error _ =>
        { ticketNumber := ticket.ticketNumber, success := false,
          details := "Ticket #" ++ toString ticket.ticketNumber ++
            " created. Email verification: Failed to check status.",
          profileName := profile.profileName }
  | _, _ =>
    { ticketNumber := ticket.ticketNumber, success := false,
      details := "Ticket #" ++ toString ticket.ticketNumber ++
        " created. Email verification: Failed to check status.",
      profileName := profile.profileName }

/-- Token endpoint response fields used by getValidAccessToken. -/
structure TokenData where
  access_token : String
  expires_in : Int
  error : Option String
deriving DecidableEq, Repr

/-- Entry of the tokenCache map: `{ data, expiresAt }` with `expiresAt` in
milliseconds since the epoch. -/
structure CacheEntry where
  data : TokenData
  expiresAt : Int
deriving DecidableEq, Repr

/-- The tokenCache map keyed by profile name. -/
def TokenCache : Type := String → Option CacheEntry

/-- Result of one getValidAccessToken call: the returned or thrown value, the
cache afterwards, and whether the token endpoint was contacted. -/
structure TokenStep where
  result : Except ErrInfo TokenData
  cache : TokenCache
  refreshed : Bool

/-- The cache-hit condition of getValidAccessToken:
`tokenCache[name] && tokenCache[name].data.access_token && tokenCache[name].expiresAt > now`
(a present entry whose access_token is truthy and whose expiry is strictly in
the future). -/
def cacheHit (cache : TokenCache) (name : String) (now : Int) : Bool :=
  match cache name with
  | none => false
  | some entry => entry.data.access_token != "" && decide (now < entry.expiresAt)

/-- Embeds getValidAccessToken (lines 109-140): return the cached data on a
cache hit; otherwise contact the token endpoint (outcome supplied by
`refreshOutcome`), rethrow a transport error or an `error` field in the
response body, and on success cache the response with
`expiresAt = now + (expires_in - 60) * 1000` before returning it. -/
def getValidAccessToken (cache : TokenCache) (now : Int) (profile : Profile)
    (refreshOutcome : Except ErrInfo TokenData) : TokenStep :=
  if cacheHit cache profile.profileName now then
    { result := Except.ok ((cache profile.profileName).getD
        { data := { access_token := "", expires_in := 0, error := none }, expiresAt := 0 }).data,
      cache := cache, refreshed := false }
  else
    match refreshOutcome with
    | Except.ok d =>
      if d.error.isSome then
        { result := Except.error { message := d.error.getD "", fullResponse := "" },
          cache := cache, refreshed := true }
      else
        { result := Except.ok d,
          cache := fun k => if k = profile.profileName then
            some { data := d, expiresAt := now + (d.expires_in - 60) * 1000 }
          else cache k,
          refreshed := true }
    | Except.error e =>
      { result := Except.error e, cache := cache, refreshed := true }

/-- Recognizer for ticketResult emissions (the primary per-recipient result). -/
def isResultEv : Event → Bool
  | Event.result _ => true
  | _ => false

/-- Recognizer for interruptibleSleep delay slots. -/
def isDelayEv : Event → Bool
  | Event.delaySlot _ _ => true
  | _ => false

/-- Recognizer for pause-poll waits. -/
def isPauseWaitEv : Event → Bool
  | Event.pauseWait _ _ => true
  | _ => false

/-- Recognizer for the bulkEnded terminal emission. -/
def isBulkEndedEv : Event → Bool
  | Event.bulkEnded _ => true
  | _ => false

/-- Recognizer for the bulkComplete terminal emission. -/
def isBulkCompleteEv : Event → Bool
  | Event.bulkComplete _ => true
  | _ => false

/-- Recognizer for the bulkError terminal emission. -/
def isBulkErrorEv : Event → Bool
  | Event.bulkError _ => true
  | _ => false

/-- Recognizer for any of the three terminal emissions. -/
def isTerminalEv (ev : Event) : Bool :=
  isBulkEndedEv ev || isBulkCompleteEv ev || isBulkErrorEv ev

/-- Recipient entries that survive the `if (!email.trim()) continue;` check. -/
def nonBlank (s : String) : Bool := !isBlank s

/-- Replaces the pause-poll count observed at iteration `i0` while leaving
every other observation of the environment unchanged (models the same run
with a pause/resume issued, or not, while the worker sits at the
top-of-iteration poll of iteration `i0`). -/
def setPausePolls (env : Nat → IterEnv) (i0 m : Nat) : Nat → IterEnv :=
  fun j =>
    if j = i0 then
      { statusA := (env j).statusA, pausePolls := m, sleepObs := (env j).sleepObs,
        statusB := (env j).statusB, createResult := (env j).createResult,
        replyResult := (env j).replyResult }
    else env j

/-- Example profile used to instantiate the theorems on concrete inputs. -/
def exProfile : Profile :=
  { profileName := "Main", orgId := "org1", defaultDepartmentId := "dep1",
    refreshToken := "rt", clientId := "ci", clientSecret := "cs",
    fromEmailAddress := some "support@x.com" }

/-- Example iteration environment: every registry read observes a running
entry and both upstream calls succeed. -/
def exIter : IterEnv :=
  { statusA := some JobStatus.running, pausePolls := 0,
    sleepObs := fun _ => some JobStatus.running,
    statusB := some JobStatus.running,
    createResult := Except.ok { id := "t1", ticketNumber := 101 },
    replyResult := Except.ok "replied" }

/-- Environment in which a pause signal arrives while the worker is inside
the inter-item delay of iteration 1: the top-of-iteration checks of
iteration 1 still observe running, the sleep observes paused from its third
tick on, and the post-delay check observes paused. -/
def exEnvPauseDuringDelay : Nat → IterEnv :=
  fun j =>
    if j = 1 then
      { statusA := some JobStatus.running, pausePolls := 0,
        sleepObs := fun t => if t < 3 then some JobStatus.running else some JobStatus.paused,
        statusB := some JobStatus.paused,
        createResult := Except.ok { id := "t2", ticketNumber := 102 },
        replyResult := Except.ok "replied" }
    else exIter

/-- Example profile with no fromEmailAddress configured. -/
def profileNoFrom : Profile :=
  { exProfile with fromEmailAddress := none }

/-- Example request whose profile name matches no stored profile. -/
def reqProfileMissing : BulkRequest :=
  { emails := ["a@x.com"], subject := "s", description := "d", delay := 0,
    selectedProfileName := "Main", sendDirectReply := false, verifyEmail := false }

/-- Example request asking for direct replies (paired with profileNoFrom). -/
def reqReplyNoFrom : BulkRequest :=
  { emails := ["a@x.com"], subject := "s", description := "d", delay := 0,
    selectedProfileName := "Main", sendDirectReply := true, verifyEmail := false }

/-- Example request matching the spec scenario: a blank entry between two
recipients, with a 2 second inter-item delay. -/
def reqBlankMiddle : BulkRequest :=
  { emails := ["a@x.com", "", "b@x.com"], subject := "s", description := "d", delay := 2,
    selectedProfileName := "Main", sendDirectReply := false, verifyEmail := false }

/-- Example request with two recipients and a 1 second inter-item delay. -/
def reqTwoWithDelay : BulkRequest :=
  { emails := ["a@x.com", "b@x.com"], subject := "s", description := "d", delay := 1,
    selectedProfileName := "Main", sendDirectReply := false, verifyEmail := false }

/-- Example token-endpoint success response. -/
def exToken : TokenData :=
  { access_token := "tok", expires_in := 3600, error := none }

/-- Token cache with no entries. -/
def emptyTokenCache : TokenCache := fun _ => none

/-- Environment of a run whose job is ended while recipient 0 is in flight:
every check from iteration 1 on observes the ended status. -/
def exEnvEndedAfter1 : Nat → IterEnv :=
  fun j =>
    if j = 0 then exIter
    else { exIter with statusA := some JobStatus.ended, statusB := some JobStatus.ended }

/-- Environment in which every create call succeeds and every reply call
fails with a fixed upstream error. -/
def exEnvReplyFail : Nat → IterEnv :=
  fun _ => { exIter with replyResult := Except.error { message := "boom", fullResponse := "raw" } }

/-!
Theorems.  Each claim of the specification is settled below; auxiliary
lemmas shared between claims precede them.
-/

/-- C1: on a setup-time failure the handler emits the batch-level bulkError
event, but the finally block then runs with the registry entry still present
in status running and additionally emits bulkComplete, so the batch produces
two terminal events rather than a single error terminal event.  This
evaluates both setup-failure paths (profile not found; sendDirectReply with
a missing fromEmailAddress) at concrete inputs.  The registry entry is
removed, as the claim states. -/
theorem setup_failure_emits_error_then_complete :
    startBulkCreate [] reqProfileMissing (fun _ => exIter) (some JobStatus.running) =
      { events := [Event.bulkError "Profile not found.", Event.bulkComplete "Main"],
        registryDeleted := true } ∧
    startBulkCreate [profileNoFrom] reqReplyNoFrom (fun _ => exIter) (some JobStatus.running) =
      { events := [Event.bulkError "Profile \"Main\" is missing \"fromEmailAddress\".",
          Event.bulkComplete "Main"],
        registryDeleted := true } :=
  ⟨rfl, rfl⟩

/-- Counterexample to C2: a job that has been ended (entry still present,
as is the case until the worker's finally block deletes it) is moved back to
paused by a later pauseJob, because the handler overwrites the status
whenever the entry exists. -/
theorem pause_after_end_reaches_paused :
    endJob (startJob emptyRegistry "s1_Main") "s1_Main" "s1_Main" = some JobStatus.ended ∧
    pauseJob (endJob (startJob emptyRegistry "s1_Main") "s1_Main") "s1_Main" "s1_Main" =
      some JobStatus.paused := by
  constructor <;> decide

/-- C2 (amended): the pause/resume/end handlers set the status to
paused/running/ended unconditionally whenever the registry entry is present,
regardless of its current status — so ended is not terminal at the registry
level — and never touch any other entry. -/
theorem registry_status_ops_unconditional (r : Registry) (j : String) :
    ((r j).isSome = true →
      pauseJob r j j = some JobStatus.paused ∧
      resumeJob r j j = some JobStatus.running ∧
      endJob r j j = some JobStatus.ended) ∧
    (∀ k, k ≠ j → pauseJob r j k = r k ∧ resumeJob r j k = r k ∧ endJob r j k = r k) := by
  constructor
  · intro h
    refine ⟨?_, ?_, ?_⟩ <;> simp [pauseJob, resumeJob, endJob, h]
  · intro k hk
    refine ⟨?_, ?_, ?_⟩ <;> simp [pauseJob, resumeJob, endJob, hk]

/-- Witness for registry_status_ops_unconditional at a concrete registry. -/
theorem registry_status_ops_unconditional_witness :
    pauseJob (startJob emptyRegistry "a_b") "a_b" "a_b" = some JobStatus.paused ∧
    pauseJob (startJob emptyRegistry "a_b") "a_b" "zz" = startJob emptyRegistry "a_b" "zz" :=
  ⟨((registry_status_ops_unconditional (startJob emptyRegistry "a_b") "a_b").1 (by decide)).1,
   ((registry_status_ops_unconditional (startJob emptyRegistry "a_b") "a_b").2 "zz"
     (by decide)).1⟩

/-- C9: ending an already-ended job changes nothing (same registry, no
emission — the handlers emit no events at all in this model), and each of
pause/resume/end applied to an absent job id leaves the registry unchanged. -/
theorem endJob_idempotent_and_absent_noop (r : Registry) (j : String) :
    endJob (endJob r j) j = endJob r j ∧
    (r j = none → pauseJob r j = r ∧ resumeJob r j = r ∧ endJob r j = r) := by
  constructor
  · funext k
    by_cases hk : k = j
    · subst hk
      cases h : r k <;> simp [endJob, h]
    · simp [endJob, hk]
  · intro h
    refine ⟨funext fun k => ?_, funext fun k => ?_, funext fun k => ?_⟩ <;>
      simp [pauseJob, resumeJob, endJob, h]

/-- Witness for endJob_idempotent_and_absent_noop on concrete registries. -/
theorem endJob_idempotent_and_absent_noop_witness :
    endJob (endJob emptyRegistry "x") "x" = endJob emptyRegistry "x" ∧
    pauseJob emptyRegistry "x" = emptyRegistry :=
  ⟨(endJob_idempotent_and_absent_noop emptyRegistry "x").1,
   ((endJob_idempotent_and_absent_noop emptyRegistry "x").2 rfl).1⟩

/-- Helper: the polling loop of interruptibleSleep resolves exactly at the
first tick whose stop condition holds, provided one exists within the fuel. -/
theorem sleepGo_first_stop (ms : Nat) (obs : Nat → Option JobStatus) :
    ∀ fuel k, (∃ j, k ≤ j ∧ j < k + fuel ∧ sleepTickStops ms obs j = true) →
      k < sleepGo ms obs fuel k ∧
      sleepTickStops ms obs (sleepGo ms obs fuel k - 1) = true ∧
      ∀ j, k ≤ j → j < sleepGo ms obs fuel k - 1 → sleepTickStops ms obs j = false := by
  intro fuel
  induction fuel with
  | zero =>
    rintro k ⟨j, hkj, hlt, _⟩
    omega
  | succ n ih =>
    intro k h
    cases hc : sleepTickStops ms obs k with
    | true =>
      simp only [sleepGo, hc, if_true, Nat.add_sub_cancel]
      exact ⟨Nat.lt_succ_self k, trivial, fun j hj hj2 => by omega⟩
    | false =>
      obtain ⟨j, hkj, hlt, hstop⟩ := h
      have hkj1 : k + 1 ≤ j := by
        rcases Nat.eq_or_lt_of_le hkj with heq | hlt2
        · exfalso
          rw [← heq] at hstop
          rw [hstop] at hc
          exact Bool.noConfusion hc
        · omega
      have hrec := ih (k + 1) ⟨j, hkj1, by omega, hstop⟩
      simp only [sleepGo, hc, Bool.false_eq_true, if_false]
      refine ⟨by omega, hrec.2.1, ?_⟩
      intro j2 hj2 hj2lt
      rcases Nat.eq_or_lt_of_le hj2 with heq | hlt3
      · rw [← heq]
        exact hc
      · exact hrec.2.2 j2 (by omega) hj2lt

/-- C6: for a positive duration, interruptibleSleep resolves at the first
100 ms tick at which either the poll observes a missing or ended registry
entry or the elapsed time has reached the duration — whichever the poll
observes first (it runs at most ceil(ms/100) ticks, every earlier tick
observed a live entry and insufficient elapsed time, and the final tick
observed a stop or completed the duration).  For a non-positive duration it
resolves immediately with zero polls, for every registry observation. -/
theorem interruptibleSleep_spec (ms : Int) (obs : Nat → Option JobStatus) :
    (ms ≤ 0 → interruptibleSleep ms obs = 0) ∧
    (0 < ms →
      0 < interruptibleSleep ms obs ∧
      interruptibleSleep ms obs ≤ (ms.toNat + 99) / 100 ∧
      (stopObs (obs (interruptibleSleep ms obs - 1)) = true ∨
        ms.toNat ≤ 100 * interruptibleSleep ms obs) ∧
      (∀ j, j < interruptibleSleep ms obs - 1 →
        stopObs (obs j) = false ∧ 100 * (j + 1) < ms.toNat)) := by
  constructor
  · intro h
    simp [interruptibleSleep, h]
  · intro h
    have hne : ¬ ms ≤ 0 := by omega
    have hm : 0 < ms.toNat := by omega
    simp only [interruptibleSleep, if_neg hne]
    have hceil : ms.toNat ≤ 100 * ((ms.toNat + 99) / 100) := by omega
    have hneed : (ms.toNat + 99) / 100 ≤ ms.toNat := by omega
    have hneed1 : 1 ≤ (ms.toNat + 99) / 100 := by omega
    have hcondj : sleepTickStops ms.toNat obs ((ms.toNat + 99) / 100 - 1) = true := by
      simp only [sleepTickStops, Bool.or_eq_true, decide_eq_true_eq]
      right
      omega
    have hrec := sleepGo_first_stop ms.toNat obs ms.toNat 0
      ⟨(ms.toNat + 99) / 100 - 1, Nat.zero_le _, by omega, hcondj⟩
    obtain ⟨h1, h2, h3⟩ := hrec
    refine ⟨h1, ?_, ?_, ?_⟩
    · by_contra hgt
      push_neg at hgt
      have := h3 ((ms.toNat + 99) / 100 - 1) (Nat.zero_le _) (by omega)
      rw [hcondj] at this
      cases this
    · have := h2
      simp only [sleepTickStops, Bool.or_eq_true, decide_eq_true_eq] at this
      rcases this with hl | hr
      · exact Or.inl hl
      · right
        omega
    · intro j hj
      have := h3 j (Nat.zero_le _) hj
      simp only [sleepTickStops, Bool.or_eq_false_iff, decide_eq_false_iff_not] at this
      exact ⟨this.1, by omega⟩

/-- Helper: each processed recipient emits exactly one ticketResult, on every
path (create success with/without reply, reply failure, create failure). -/
theorem processEmail_result_count (sdr : Bool) (i : Nat) (email : String)
    (cr : Except ErrInfo Ticket) (rr : Except ErrInfo String) :
    (List.filter isResultEv (processEmail sdr i email cr rr)).length = 1 := by
  cases cr <;> cases rr <;> cases sdr <;> simp [processEmail, isResultEv]

/-- Helper: processing a recipient performs no delay slot. -/
theorem processEmail_no_delay (sdr : Bool) (i : Nat) (email : String)
    (cr : Except ErrInfo Ticket) (rr : Except ErrInfo String) :
    List.filter isDelayEv (processEmail sdr i email cr rr) = [] := by
  cases cr <;> cases rr <;> cases sdr <;> simp [processEmail, isDelayEv]

/-- Helper: processing a recipient emits no terminal event of any kind. -/
theorem processEmail_no_terminal (sdr : Bool) (i : Nat) (email : String)
    (cr : Except ErrInfo Ticket) (rr : Except ErrInfo String) :
    List.filter isBulkEndedEv (processEmail sdr i email cr rr) = [] ∧
    List.filter isBulkCompleteEv (processEmail sdr i email cr rr) = [] ∧
    List.filter isBulkErrorEv (processEmail sdr i email cr rr) = [] := by
  cases cr <;> cases rr <;> cases sdr <;>
    simp [processEmail, isBulkEndedEv, isBulkCompleteEv, isBulkErrorEv]

/-- Helper: the create call emitted for a recipient carries that recipient's
loop index. -/
theorem processEmail_createCall_index (sdr : Bool) (i : Nat) (email : String)
    (cr : Except ErrInfo Ticket) (rr : Except ErrInfo String) (j : Nat) (em : String)
    (h : Event.createCall j em ∈ processEmail sdr i email cr rr) : j = i := by
  cases cr <;> cases rr <;> cases sdr <;> (simp [processEmail] at h; tauto)

/-- Helper: the finally block emits no ticketResult. -/
theorem terminalEvents_no_result (fs : Option JobStatus) (name : String) :
    List.filter isResultEv (terminalEvents fs name) = [] := by
  cases fs with
  | none => rfl
  | some s => cases s <;> rfl

/-- Helper: the finally block performs no delay slot. -/
theorem terminalEvents_no_delay (fs : Option JobStatus) (name : String) :
    List.filter isDelayEv (terminalEvents fs name) = [] := by
  cases fs with
  | none => rfl
  | some s => cases s <;> rfl

/-- Helper: when no check ever observes a missing or ended entry, the loop
emits exactly one ticketResult per non-blank recipient. -/
theorem runLoop_result_count (sdr : Bool) (delay : Nat) (env : Nat → IterEnv)
    (hA : ∀ j, stopObs (env j).statusA = false)
    (hB : ∀ j, stopObs (env j).statusB = false) :
    ∀ emails i, (List.filter isResultEv (runLoop sdr delay env emails i)).length =
      (List.filter nonBlank emails).length := by
  intro emails
  induction emails with
  | nil => intro i; simp [runLoop]
  | cons e rest ih =>
    intro i
    by_cases hb : isBlank e = true
    · simp [runLoop, hA i, hB i, hb, List.filter_append, ih (i + 1), nonBlank,
        isResultEv, apply_ite (List.filter isResultEv)]
    · have hb2 : isBlank e = false := by simpa using hb
      simp [runLoop, hA i, hB i, hb2, List.filter_append, ih (i + 1), nonBlank,
        processEmail_result_count, isResultEv, apply_ite (List.filter isResultEv)]
      omega

/-- Helper: starting from any index past the first, every iteration performs
one delay slot (also for blank recipients, since the delay precedes the
blank check), so a run over the remaining list performs one slot per entry. -/
theorem runLoop_delay_count_from_one (sdr : Bool) (delay : Nat) (env : Nat → IterEnv)
    (hA : ∀ j, stopObs (env j).statusA = false)
    (hB : ∀ j, stopObs (env j).statusB = false) (hd : 0 < delay) :
    ∀ emails i, 1 ≤ i →
      (List.filter isDelayEv (runLoop sdr delay env emails i)).length = emails.length := by
  intro emails
  induction emails with
  | nil => intro i _; simp [runLoop]
  | cons e rest ih =>
    intro i hi
    have hcond : 0 < i ∧ 0 < delay := ⟨hi, hd⟩
    by_cases hb : isBlank e = true
    · simp [runLoop, hA i, hB i, hb, hcond, List.filter_append, ih (i + 1) (by omega),
        isDelayEv, processEmail_no_delay, apply_ite (List.filter isDelayEv)]
    · have hb2 : isBlank e = false := by simpa using hb
      simp [runLoop, hA i, hB i, hb2, hcond, List.filter_append, ih (i + 1) (by omega),
        isDelayEv, processEmail_no_delay, apply_ite (List.filter isDelayEv)]

/-- Helper: a full run from index 0 performs one delay slot per entry except
the first (the `i > 0` guard skips the slot of index 0 only). -/
theorem runLoop_delay_count_from_zero (sdr : Bool) (delay : Nat) (env : Nat → IterEnv)
    (hA : ∀ j, stopObs (env j).statusA = false)
    (hB : ∀ j, stopObs (env j).statusB = false) (hd : 0 < delay) :
    ∀ emails, (List.filter isDelayEv (runLoop sdr delay env emails 0)).length =
      emails.length - 1 := by
  intro emails
  cases emails with
  | nil => simp [runLoop]
  | cons e rest =>
    have hnotc : ¬ (0 < 0 ∧ 0 < delay) := by omega
    by_cases hb : isBlank e = true
    · simp [runLoop, hA 0, hB 0, hb, hnotc, List.filter_append,
        runLoop_delay_count_from_one sdr delay env hA hB hd rest 1 (by omega),
        isDelayEv, processEmail_no_delay, apply_ite (List.filter isDelayEv)]
    · have hb2 : isBlank e = false := by simpa using hb
      simp [runLoop, hA 0, hB 0, hb2, hnotc, List.filter_append,
        runLoop_delay_count_from_one sdr delay env hA hB hd rest 1 (by omega),
        isDelayEv, processEmail_no_delay, apply_ite (List.filter isDelayEv)]

/-- Counterexample to C3's no-delay-for-blank part: in the spec's own
scenario list with a 2 second delay, the blank entry at index 1 is skipped
(only two ticketResult events are emitted) yet the inter-item delay at index
1 is still performed — it runs its full 20 ticks of 100 ms — because the
delay (line 521) precedes the blank check (line 525). -/
theorem blank_entry_consumes_delay_slot :
    isBlank "" = true ∧
    Event.delaySlot 1 20 ∈
      (startBulkCreate [exProfile] reqBlankMiddle (fun _ => exIter)
        (some JobStatus.running)).events ∧
    (List.filter isResultEv
      (startBulkCreate [exProfile] reqBlankMiddle (fun _ => exIter)
        (some JobStatus.running)).events).length = 2 :=
  ⟨rfl, by decide, by decide⟩

/-- C3 (amended): when the job is never ended or removed, every non-blank
recipient yields exactly one primary result event (so the result count
equals the non-blank count) and blank entries are silently skipped; however
a blank entry does consume a delay slot: with a positive delay the loop
performs exactly one inter-item delay per entry past the first, blank or
not. -/
theorem result_count_eq_nonblank (profiles : List Profile) (req : BulkRequest)
    (env : Nat → IterEnv) (finalStatus : Option JobStatus) (p : Profile)
    (hp : findProfile profiles req.selectedProfileName = some p)
    (hfrom : (req.sendDirectReply && jsFalsyOptStr p.fromEmailAddress) = false)
    (hA : ∀ j, stopObs (env j).statusA = false)
    (hB : ∀ j, stopObs (env j).statusB = false) :
    (List.filter isResultEv (startBulkCreate profiles req env finalStatus).events).length =
      (List.filter nonBlank req.emails).length ∧
    (0 < req.delay →
      (List.filter isDelayEv (startBulkCreate profiles req env finalStatus).events).length =
        req.emails.length - 1) := by
  constructor
  · simp [startBulkCreate, hp, hfrom, List.filter_append, terminalEvents_no_result,
      runLoop_result_count req.sendDirectReply req.delay env hA hB]
  · intro hd
    simp [startBulkCreate, hp, hfrom, List.filter_append, terminalEvents_no_delay,
      runLoop_delay_count_from_zero req.sendDirectReply req.delay env hA hB hd]

/-- Witness for result_count_eq_nonblank on the spec's scenario input. -/
theorem result_count_eq_nonblank_witness :
    (List.filter isResultEv (startBulkCreate [exProfile] reqBlankMiddle (fun _ => exIter)
      (some JobStatus.running)).events).length =
      (List.filter nonBlank reqBlankMiddle.emails).length ∧
    (List.filter isDelayEv (startBulkCreate [exProfile] reqBlankMiddle (fun _ => exIter)
      (some JobStatus.running)).events).length = reqBlankMiddle.emails.length - 1 :=
  ⟨(result_count_eq_nonblank [exProfile] reqBlankMiddle (fun _ => exIter)
      (some JobStatus.running) exProfile (by decide) rfl (fun _ => rfl) (fun _ => rfl)).1,
   (result_count_eq_nonblank [exProfile] reqBlankMiddle (fun _ => exIter)
      (some JobStatus.running) exProfile (by decide) rfl (fun _ => rfl) (fun _ => rfl)).2
     (by decide)⟩

/-- Helper: once every top-of-iteration check from index `k` on observes a
stop, the loop's trace equals the trace over the list truncated to the first
`k - i` remaining entries: nothing past the stop point is processed, and
everything before it is untouched. -/
theorem runLoop_ended_truncates (sdr : Bool) (delay : Nat) (env : Nat → IterEnv) (k : Nat)
    (h : ∀ j, k ≤ j → stopObs (env j).statusA = true) :
    ∀ emails i, runLoop sdr delay env emails i =
      runLoop sdr delay env (List.take (k - i) emails) i := by
  intro emails
  induction emails with
  | nil => intro i; simp [List.take_nil]
  | cons e rest ih =>
    intro i
    by_cases hik : k ≤ i
    · have hz : k - i = 0 := by omega
      rw [hz]
      simp [runLoop, h i hik]
    · have hk1 : k - i = (k - (i + 1)) + 1 := by omega
      rw [hk1, List.take_succ_cons]
      simp only [runLoop]
      rw [ih (i + 1)]

/-- Helper: every event of a loop iteration is the pause wait, the delay
slot, a processEmail event, or an event of the remaining iterations. -/
theorem runLoop_cons_mem (sdr : Bool) (delay : Nat) (env : Nat → IterEnv)
    (e : String) (rest : List String) (i : Nat) (ev : Event)
    (h : ev ∈ runLoop sdr delay env (e :: rest) i) :
    ev = Event.pauseWait i (env i).pausePolls ∨
    ev = Event.delaySlot i (interruptibleSleep ((delay : Int) * 1000) (env i).sleepObs) ∨
    ev ∈ processEmail sdr i e (env i).createResult (env i).replyResult ∨
    ev ∈ runLoop sdr delay env rest (i + 1) := by
  simp only [runLoop] at h
  split at h
  · simp at h
  · simp only [List.append_eq, List.mem_append] at h
    rcases h with (h | h) | h
    · split at h
      · simp at h
        exact Or.inl h
      · simp at h
    · split at h
      · simp at h
        exact Or.inr (Or.inl h)
      · simp at h
    · split at h
      · simp at h
      · split at h
        · exact Or.inr (Or.inr (Or.inr h))
        · rcases List.mem_append.mp h with h2 | h2
          · exact Or.inr (Or.inr (Or.inl h2))
          · exact Or.inr (Or.inr (Or.inr h2))

/-- Helper: every create call issued by the loop over `emails` starting at
index `i` carries an index in the interval `[i, i + emails.length)`. -/
theorem runLoop_createCall_bound (sdr : Bool) (delay : Nat) (env : Nat → IterEnv) :
    ∀ emails i j em, Event.createCall j em ∈ runLoop sdr delay env emails i →
      i ≤ j ∧ j < i + emails.length := by
  intro emails
  induction emails with
  | nil => intro i j em h; simp [runLoop] at h
  | cons e rest ih =>
    intro i j em h
    rcases runLoop_cons_mem sdr delay env e rest i (Event.createCall j em) h with
      h1 | h1 | h1 | h1
    · simp at h1
    · simp at h1
    · have hji := processEmail_createCall_index sdr i e (env i).createResult
        (env i).replyResult j em h1
      simp only [List.length_cons]
      omega
    · have := ih (i + 1) j em h1
      simp only [List.length_cons]
      omega

/-- Helper: the worker loop never emits a terminal event of any kind. -/
theorem runLoop_no_terminal (sdr : Bool) (delay : Nat) (env : Nat → IterEnv) :
    ∀ emails i,
      List.filter isBulkEndedEv (runLoop sdr delay env emails i) = [] ∧
      List.filter isBulkCompleteEv (runLoop sdr delay env emails i) = [] ∧
      List.filter isBulkErrorEv (runLoop sdr delay env emails i) = [] := by
  intro emails
  induction emails with
  | nil => intro i; exact ⟨rfl, rfl, rfl⟩
  | cons e rest ih =>
    intro i
    by_cases hA2 : stopObs (env i).statusA = true
    · simp [runLoop, hA2]
    · have hA3 : stopObs (env i).statusA = false := by simpa using hA2
      by_cases hB2 : stopObs (env i).statusB = true
      · refine ⟨?_, ?_, ?_⟩ <;>
          simp [runLoop, hA3, hB2, List.filter_append, isBulkEndedEv, isBulkCompleteEv,
            isBulkErrorEv, apply_ite (List.filter isBulkEndedEv),
            apply_ite (List.filter isBulkCompleteEv), apply_ite (List.filter isBulkErrorEv)]
      · have hB3 : stopObs (env i).statusB = false := by simpa using hB2
        by_cases hb : isBlank e = true
        · refine ⟨?_, ?_, ?_⟩ <;>
            simp [runLoop, hA3, hB3, hb, List.filter_append, (ih (i + 1)).1,
              (ih (i + 1)).2.1, (ih (i + 1)).2.2, isBulkEndedEv, isBulkCompleteEv,
              isBulkErrorEv, apply_ite (List.filter isBulkEndedEv),
              apply_ite (List.filter isBulkCompleteEv), apply_ite (List.filter isBulkErrorEv)]
        · have hb2 : isBlank e = false := by simpa using hb
          refine ⟨?_, ?_, ?_⟩ <;>
            simp [runLoop, hA3, hB3, hb2, List.filter_append, (ih (i + 1)).1,
              (ih (i + 1)).2.1, (ih (i + 1)).2.2,
              (processEmail_no_terminal sdr i e (env i).createResult (env i).replyResult).1,
              (processEmail_no_terminal sdr i e (env i).createResult (env i).replyResult).2.1,
              (processEmail_no_terminal sdr i e (env i).createResult (env i).replyResult).2.2,
              isBulkEndedEv, isBulkCompleteEv, isBulkErrorEv,
              apply_ite (List.filter isBulkEndedEv),
              apply_ite (List.filter isBulkCompleteEv), apply_ite (List.filter isBulkErrorEv)]

/-- C4: when every top-of-iteration check from index `k` on observes the
ended status (i.e. the job was ended while recipient `k - 1` was in flight,
and nothing overwrote the status afterwards), the batch trace equals the
trace of the first `k` recipients — so the in-flight recipient's result is
still emitted — followed by exactly one bulkEnded terminal event; no create
call with index `≥ k` is ever issued, and no bulkComplete or bulkError is
emitted. -/
theorem ended_stops_new_create_calls (profiles : List Profile) (req : BulkRequest)
    (env : Nat → IterEnv) (p : Profile) (k : Nat)
    (hp : findProfile profiles req.selectedProfileName = some p)
    (hfrom : (req.sendDirectReply && jsFalsyOptStr p.fromEmailAddress) = false)
    (hend : ∀ j, k ≤ j → (env j).statusA = some JobStatus.ended) :
    (startBulkCreate profiles req env (some JobStatus.ended)).events =
      runLoop req.sendDirectReply req.delay env (List.take k req.emails) 0 ++
        [Event.bulkEnded req.selectedProfileName] ∧
    (∀ j em, Event.createCall j em ∈
      (startBulkCreate profiles req env (some JobStatus.ended)).events → j < k) ∧
    (List.filter isBulkEndedEv
      (startBulkCreate profiles req env (some JobStatus.ended)).events).length = 1 ∧
    List.filter isBulkCompleteEv
      (startBulkCreate profiles req env (some JobStatus.ended)).events = [] ∧
    List.filter isBulkErrorEv
      (startBulkCreate profiles req env (some JobStatus.ended)).events = [] := by
  have hstop : ∀ j, k ≤ j → stopObs (env j).statusA = true := by
    intro j hj
    rw [hend j hj]
    rfl
  have htr := runLoop_ended_truncates req.sendDirectReply req.delay env k hstop req.emails 0
  rw [Nat.sub_zero] at htr
  have hev : (startBulkCreate profiles req env (some JobStatus.ended)).events =
      runLoop req.sendDirectReply req.delay env (List.take k req.emails) 0 ++
        [Event.bulkEnded req.selectedProfileName] := by
    simp only [startBulkCreate, hp, hfrom, Bool.false_eq_true, if_false]
    rw [htr]
    rfl
  refine ⟨hev, ?_, ?_, ?_, ?_⟩
  · intro j em hmem
    rw [hev] at hmem
    rcases List.mem_append.mp hmem with h1 | h1
    · have hb := runLoop_createCall_bound req.sendDirectReply req.delay env
        (List.take k req.emails) 0 j em h1
      have hlen : (List.take k req.emails).length ≤ k := by
        rw [List.length_take]
        exact Nat.min_le_left _ _
      omega
    · simp at h1
  · rw [hev]
    simp [List.filter_append,
      (runLoop_no_terminal req.sendDirectReply req.delay env (List.take k req.emails) 0).1,
      isBulkEndedEv]
  · rw [hev]
    simp [List.filter_append,
      (runLoop_no_terminal req.sendDirectReply req.delay env (List.take k req.emails) 0).2.1,
      isBulkCompleteEv]
  · rw [hev]
    simp [List.filter_append,
      (runLoop_no_terminal req.sendDirectReply req.delay env (List.take k req.emails) 0).2.2,
      isBulkErrorEv]

/-- Witness for interruptibleSleep_spec: a negative duration resolves with
zero ticks, and a 250 ms duration with an always-running registry runs a
positive number of ticks bounded by ceil(250/100) = 3. -/
theorem interruptibleSleep_spec_witness :
    interruptibleSleep (-5) (fun _ => some JobStatus.running) = 0 ∧
    0 < interruptibleSleep 250 (fun _ => some JobStatus.running) ∧
    interruptibleSleep 250 (fun _ => some JobStatus.running) ≤ ((250 : Int).toNat + 99) / 100 :=
  ⟨(interruptibleSleep_spec (-5) (fun _ => some JobStatus.running)).1 (by decide),
   ((interruptibleSleep_spec 250 (fun _ => some JobStatus.running)).2 (by decide)).1,
   ((interruptibleSleep_spec 250 (fun _ => some JobStatus.running)).2 (by decide)).2.1⟩

/-- Witness for ended_stops_new_create_calls: a two-recipient batch whose
registry reads observe ended from iteration 1 on emits the first recipient's
events followed by one bulkEnded and no bulkComplete. -/
theorem ended_stops_new_create_calls_witness :
    (startBulkCreate [exProfile] reqTwoWithDelay exEnvEndedAfter1
      (some JobStatus.ended)).events =
      runLoop reqTwoWithDelay.sendDirectReply reqTwoWithDelay.delay exEnvEndedAfter1
        (List.take 1 reqTwoWithDelay.emails) 0 ++
        [Event.bulkEnded reqTwoWithDelay.selectedProfileName] ∧
    List.filter isBulkCompleteEv
      (startBulkCreate [exProfile] reqTwoWithDelay exEnvEndedAfter1
        (some JobStatus.ended)).events = [] :=
  ⟨(ended_stops_new_create_calls [exProfile] reqTwoWithDelay exEnvEndedAfter1 exProfile 1
      (by decide) rfl (fun j hj => by
        have hj0 : j ≠ 0 := by omega
        simp [exEnvEndedAfter1, hj0])).1,
   (ended_stops_new_create_calls [exProfile] reqTwoWithDelay exEnvEndedAfter1 exProfile 1
      (by decide) rfl (fun j hj => by
        have hj0 : j ≠ 0 := by omega
        simp [exEnvEndedAfter1, hj0])).2.2.2.1⟩

/-- Counterexample to C5: a pause that arrives during the inter-item delay
does not stop the current index from being processed.  In this concrete run
the post-delay check of iteration 1 observes status paused (the pause signal
arrived during the delay, whose later ticks also observe paused), yet the
create call for recipient 1 is still issued, because neither the delay poll
nor the post-delay check tests for paused — only the top-of-iteration poll
does. -/
theorem create_issued_while_paused :
    (exEnvPauseDuringDelay 1).statusB = some JobStatus.paused ∧
    Event.createCall 1 "b@x.com" ∈
      (startBulkCreate [exProfile] reqTwoWithDelay exEnvPauseDuringDelay
        (some JobStatus.running)).events :=
  ⟨rfl, by decide⟩

/-- Helper: overriding the pause-poll count of one iteration leaves every
other observation of the environment unchanged. -/
theorem setPausePolls_fields (env : Nat → IterEnv) (i0 m j : Nat) :
    (setPausePolls env i0 m j).statusA = (env j).statusA ∧
    (setPausePolls env i0 m j).sleepObs = (env j).sleepObs ∧
    (setPausePolls env i0 m j).statusB = (env j).statusB ∧
    (setPausePolls env i0 m j).createResult = (env j).createResult ∧
    (setPausePolls env i0 m j).replyResult = (env j).replyResult := by
  by_cases h : j = i0 <;> simp [setPausePolls, h]

/-- Helper: the pause-wait marker of an iteration is dropped by the
non-pause-wait filter, whatever the poll count and condition. -/
theorem filter_nonPauseWait_pauseOpt (c : Prop) [Decidable c] (i m : Nat) :
    List.filter (fun ev => !isPauseWaitEv ev)
      (if c then [Event.pauseWait i m] else []) = [] := by
  split <;> simp [isPauseWaitEv]

/-- Helper: a delay slot survives the non-pause-wait filter. -/
theorem filter_nonPauseWait_delayOpt (c : Prop) [Decidable c] (i tk : Nat) :
    List.filter (fun ev => !isPauseWaitEv ev)
      (if c then [Event.delaySlot i tk] else []) =
      (if c then [Event.delaySlot i tk] else []) := by
  split <;> simp [isPauseWaitEv]

/-- Helper: processEmail events all survive the non-pause-wait filter. -/
theorem filter_nonPauseWait_processEmail (sdr : Bool) (i : Nat) (email : String)
    (cr : Except ErrInfo Ticket) (rr : Except ErrInfo String) :
    List.filter (fun ev => !isPauseWaitEv ev) (processEmail sdr i email cr rr) =
      processEmail sdr i email cr rr := by
  cases cr <;> cases rr <;> cases sdr <;> simp [processEmail, isPauseWaitEv]

/-- C5 (amended): a pause observed at the top-of-iteration poll only delays
the worker: apart from the pause-wait itself, the trace — including the full
inter-item delay slots and all later recipients' events from the same index
on — is identical whether or not iteration `i0` sat in the pause poll, for
any number of paused polls.  (Pauses arriving later in an iteration are not
observed; see the counterexample.) -/
theorem pause_poll_invisible_in_trace (sdr : Bool) (delay : Nat) (env : Nat → IterEnv)
    (i0 m : Nat) :
    ∀ emails i,
      List.filter (fun ev => !isPauseWaitEv ev)
        (runLoop sdr delay (setPausePolls env i0 m) emails i) =
      List.filter (fun ev => !isPauseWaitEv ev) (runLoop sdr delay env emails i) := by
  intro emails
  induction emails with
  | nil => intro i; rfl
  | cons e rest ih =>
    intro i
    obtain ⟨f1, f2, f3, f4, f5⟩ := setPausePolls_fields env i0 m i
    by_cases hA2 : stopObs (env i).statusA = true
    · simp [runLoop, hA2, f1]
    · have hA3 : stopObs (env i).statusA = false := by simpa using hA2
      by_cases hB2 : stopObs (env i).statusB = true
      · simp only [runLoop, f1, f2, f3, hA3, hB2, Bool.false_eq_true, if_false, if_true,
          List.filter_append, List.append_nil, filter_nonPauseWait_pauseOpt,
          filter_nonPauseWait_delayOpt]
      · have hB3 : stopObs (env i).statusB = false := by simpa using hB2
        by_cases hb : isBlank e = true
        · simp only [runLoop, f1, f2, f3, hA3, hB3, hb, Bool.false_eq_true, if_false,
            if_true, List.filter_append, filter_nonPauseWait_pauseOpt,
            filter_nonPauseWait_delayOpt, List.nil_append, ih (i + 1)]
        · have hbf : isBlank e = false := by simpa using hb
          simp only [runLoop, f1, f2, f3, f4, f5, hA3, hB3, hbf, Bool.false_eq_true,
            if_false, List.filter_append, filter_nonPauseWait_pauseOpt,
            filter_nonPauseWait_delayOpt, filter_nonPauseWait_processEmail,
            List.nil_append, ih (i + 1)]

/-- C7: a recipient whose create call succeeds but whose reply call fails
(with sendDirectReply set) yields exactly one ticketResult with
success = false, the created ticket's number populated, and the parsed reply
error appended into the payload (sendReply holds the parsed error); the
ticket-log write for the created ticket stands (no rollback event exists),
and the loop continues with the next recipient: the iteration's trace is the
pause/delay prefix, then these processEmail events, then the trace of the
remaining recipients. -/
theorem reply_failure_partial_success (delay : Nat) (env : Nat → IterEnv) (i : Nat)
    (email : String) (rest : List String) (t : Ticket) (e : ErrInfo)
    (hc : (env i).createResult = Except.ok t)
    (hr : (env i).replyResult = Except.error e)
    (hA : stopObs (env i).statusA = false)
    (hB : stopObs (env i).statusB = false)
    (hblank : isBlank email = false) :
    processEmail true i email (env i).createResult (env i).replyResult =
      [Event.createCall i email, Event.logWrite t.ticketNumber email,
       Event.result
         { email := email, success := false, ticketNumber := some t.ticketNumber,
           details := some ("Ticket #" ++ toString t.ticketNumber ++
             " created, but reply failed: " ++ e.message),
           error := none, sendReply := some (ReplyField.err e) }] ∧
    ∃ pre, runLoop true delay env (email :: rest) i =
      pre ++ (processEmail true i email (env i).createResult (env i).replyResult ++
        runLoop true delay env rest (i + 1)) := by
  constructor
  · rw [hc, hr]
    rfl
  · refine ⟨(if 0 < (env i).pausePolls then [Event.pauseWait i (env i).pausePolls] else []) ++
      (if 0 < i ∧ 0 < delay then
        [Event.delaySlot i (interruptibleSleep ((delay : Int) * 1000) (env i).sleepObs)]
      else []), ?_⟩
    simp only [runLoop, hA, hB, hblank, Bool.false_eq_true, if_false, List.append_assoc]

/-- Witness for reply_failure_partial_success at concrete inputs. -/
theorem reply_failure_partial_success_witness :
    processEmail true 0 "a@x.com" (Except.ok { id := "t1", ticketNumber := 101 })
      (Except.error { message := "boom", fullResponse := "raw" }) =
      [Event.createCall 0 "a@x.com", Event.logWrite 101 "a@x.com",
       Event.result
         { email := "a@x.com", success := false, ticketNumber := some 101,
           details := some ("Ticket #" ++ toString 101 ++
             " created, but reply failed: " ++ "boom"),
           error := none,
           sendReply := some (ReplyField.err { message := "boom", fullResponse := "raw" }) }] :=
  (reply_failure_partial_success 0 exEnvReplyFail 0 "a@x.com" []
    { id := "t1", ticketNumber := 101 } { message := "boom", fullResponse := "raw" }
    rfl rfl rfl rfl (by decide)).1

/-- C8: with verification reaching the alert feed — both history feeds
succeed with empty (or missing, defaulted-empty) data — and the
department-scoped failure-alert feed containing an entry matching the
created ticket's number, the emitted verification update has
success = false and its detail string carries the matching alert's reason
text as a suffix. -/
theorem verify_empty_history_alert_reason (t : Ticket) (p : Profile)
    (w n : HistoryFeed) (feed : AlertFeed) (a : FailureAlert)
    (hw : w.data.getD [] = []) (hn : n.data.getD [] = [])
    (hfind : findFailureAlert feed t.ticketNumber = some a) :
    (verifyTicketEmail t p (Except.ok w) (Except.ok n) (Except.ok feed)).success = false ∧
    ∃ pre, (verifyTicketEmail t p (Except.ok w) (Except.ok n) (Except.ok feed)).details =
      pre ++ a.reason := by
  have hcond : (w.data.getD [] ++ n.data.getD [] : List String).length = 0 := by
    rw [hw, hn]
    rfl
  constructor
  · simp [verifyTicketEmail, hcond, hfind]
  · refine ⟨"Ticket #" ++ toString t.ticketNumber ++ " created. " ++
      "Email verification: Failed. Reason: ", ?_⟩
    have hdet : (verifyTicketEmail t p (Except.ok w) (Except.ok n) (Except.ok feed)).details =
        "Ticket #" ++ toString t.ticketNumber ++ " created. " ++
          ("Email verification: Failed. Reason: " ++ a.reason) := by
      simp [verifyTicketEmail, hcond, hfind]
    rw [hdet]
    exact (String.append_assoc ("Ticket #" ++ toString t.ticketNumber ++ " created. ")
      "Email verification: Failed. Reason: " a.reason).symm

/-- Witness for verify_empty_history_alert_reason at concrete feeds. -/
theorem verify_empty_history_alert_reason_witness :
    (verifyTicketEmail { id := "t9", ticketNumber := 555 } exProfile
      (Except.ok { data := none }) (Except.ok { data := some [] })
      (Except.ok { data := some [{ ticketNumber := 555, reason := "Bounced" }] })).success =
      false :=
  (verify_empty_history_alert_reason { id := "t9", ticketNumber := 555 } exProfile
    { data := none } { data := some [] }
    { data := some [{ ticketNumber := 555, reason := "Bounced" }] }
    { ticketNumber := 555, reason := "Bounced" } rfl rfl (by decide)).1

/-- C10: getValidAccessToken skips the token endpoint exactly when the cache
holds an entry for the profile name with a non-empty access_token and an
expiry strictly in the future (in which case it returns the cached data and
leaves the cache unchanged); on a cache miss with a successful refresh it
caches and returns the response with expiry now + (expires_in - 60) seconds
(stored in milliseconds), so a cached token is treated as expired 60 seconds
before its upstream lifetime ends. -/
theorem getValidAccessToken_cache_spec (cache : TokenCache) (now : Int) (p : Profile)
    (ro : Except ErrInfo TokenData) :
    (cacheHit cache p.profileName now = true ↔
      ∃ entry, cache p.profileName = some entry ∧
        entry.data.access_token ≠ "" ∧ now < entry.expiresAt) ∧
    ((getValidAccessToken cache now p ro).refreshed = false ↔
      cacheHit cache p.profileName now = true) ∧
    (∀ entry, cache p.profileName = some entry →
      cacheHit cache p.profileName now = true →
      (getValidAccessToken cache now p ro).result = Except.ok entry.data ∧
      (getValidAccessToken cache now p ro).cache = cache) ∧
    (∀ d, ro = Except.ok d → d.error = none →
      cacheHit cache p.profileName now = false →
      (getValidAccessToken cache now p ro).cache p.profileName =
        some { data := d, expiresAt := now + (d.expires_in - 60) * 1000 } ∧
      (getValidAccessToken cache now p ro).result = Except.ok d) := by
  refine ⟨?_, ?_, ?_, ?_⟩
  · cases hcc : cache p.profileName with
    | none => simp [cacheHit, hcc]
    | some entry => simp [cacheHit, hcc, bne_iff_ne]
  · by_cases hh : cacheHit cache p.profileName now = true
    · simp [getValidAccessToken, hh]
    · have hh2 : cacheHit cache p.profileName now = false := by simpa using hh
      cases ro with
      | ok d =>
        by_cases he : d.error.isSome = true
        · simp [getValidAccessToken, hh2, he]
        · have he2 : d.error.isSome = false := by simpa using he
          simp [getValidAccessToken, hh2, he2]
      | error e => simp [getValidAccessToken, hh2]
  · intro entry hce hh
    simp [getValidAccessToken, hh, hce]
  · intro d hro herr hh
    have hes : d.error.isSome = false := by simp [herr]
    simp [getValidAccessToken, hh, hro, hes]

/-- Witness for getValidAccessToken_cache_spec: a refresh against an empty
cache records the response with the 60-second safety margin. -/
theorem getValidAccessToken_cache_spec_witness :
    (getValidAccessToken emptyTokenCache 0 exProfile (Except.ok exToken)).cache
      exProfile.profileName =
      some { data := exToken, expiresAt := 0 + ((3600 : Int) - 60) * 1000 } ∧
    (getValidAccessToken emptyTokenCache 0 exProfile (Except.ok exToken)).result =
      Except.ok exToken :=
  (getValidAccessToken_cache_spec emptyTokenCache 0 exProfile (Except.ok exToken)).2.2.2
    exToken rfl rfl (by decide)
